import Mathlib

/-!
# Shallow embedding of TwistOptimizer (optimizer.py)

This file embeds the twist-optimization driver of the repository:
the `TwistOptimizer` class of `optimizer.py`, with its constructor,
`optimize`, `_get_induced_drag` and `get_distributions` methods.

The external collaborators (the MachUpX aerodynamic solver and the
scipy minimizer) are modelled as oracles: arbitrary functions supplied
as parameters.  All machine floats are modelled as exact rationals in
the optimizer layer; the distribution post-processing, which uses
square roots and trigonometric functions, is modelled over the reals.
Python exceptions are modelled with `Except`; Python attributes that
may not yet have been assigned are modelled with `Option` fields, an
access to an unassigned one yielding an `attributeError`.
-/

namespace TwistOpt

/-- Python exceptions that the embedded code can raise. -/
inductive PyErr where
  | ioError : String → PyErr
  | keyError : String → PyErr
  | attributeError : String → PyErr
  | solverError : String → PyErr
  deriving DecidableEq, Repr

/-- One wing-section entry of the MachUpX wing input dictionary.  The
`twist` field is the one written by the optimizer (a two-column table of
(span fraction, twist) pairs); all other geometry parameters (semispan,
chord, sweep, ...) are kept as an association list of named scalars. -/
structure WingSection where
  twist : Option (List (ℚ × ℚ))
  params : List (String × ℚ)
  deriving DecidableEq, Repr

/-- The MachUpX wing input dictionary: a mapping from section name to
section data, plus the remaining top-level scalar entries. -/
structure WingInput where
  wings : List (String × WingSection)
  extra : List (String × ℚ)
  deriving DecidableEq, Repr

/-- Overwrite the twist entry of the section named `design_section` in
a section list, leaving every other section untouched. -/
def setDesignTwistWings (t : List (ℚ × ℚ)) :
    List (String × WingSection) → List (String × WingSection)
  | [] => []
  | (k, sec) :: rest =>
    (if k = "design_section" then (k, { sec with twist := some t }) else (k, sec))
      :: setDesignTwistWings t rest

/-- `wing_dict["wings"]["design_section"]["twist"] = twist_array`
(line 81 of optimizer.py): overwrite the twist entry of the section
named `design_section`, leaving every other section untouched.  (The
construction-time check guarantees the section exists.) -/
def WingInput.setDesignTwist (w : WingInput) (t : List (ℚ × ℚ)) : WingInput :=
  { w with wings := setDesignTwistWings t w.wings }

/-- A MachUpX scene, as the embedded code uses it: the atmosphere
density it was constructed with, the aircraft added to it (wing
dictionary and freestream velocity), and the angle-of-attack state set
by `target_CL(..., set_state=True)`. -/
structure Scene where
  density : ℚ
  aircraft : Option (WingInput × ℚ)
  alpha : Option ℚ
  deriving DecidableEq, Repr

/-- Oracle for the fallible MachUpX solves used by the objective
function: `target_CL` (returning the trim angle of attack) and
`solve_forces` (from whose output the code reads
`FM["wing"]["total"]["CD"]`).  Either call may raise. -/
structure Solver where
  trimAlpha : Scene → ℚ → Except PyErr ℚ
  forcesCD : Scene → Except PyErr ℚ

/-- `np.linspace(start, stop, num)`: `num` evenly spaced points from
`start` to `stop` inclusive. -/
def linspace (start stop : ℚ) (num : ℕ) : List ℚ :=
  if num = 0 then []
  else if num = 1 then [start]
  else (List.range num).map (fun i : ℕ => start + (stop - start) * (i : ℚ) / ((num : ℚ) - 1))

/-- The state of a `TwistOptimizer` object.  `wing_input`, `V` and
`rho` are set by the constructor; `N`, `CL` and `C_D` by `optimize`;
`scene` and `alpha` by `_get_induced_drag`.  Fields not yet assigned
are `none`. -/
structure TwistOptimizer where
  wing_input : WingInput
  V : ℚ
  rho : ℚ
  N : Option ℕ
  CL : Option ℚ
  scene : Option Scene
  alpha : Option ℚ
  C_D : Option ℚ
  deriving DecidableEq, Repr

/-- `TwistOptimizer.__init__(wing_input, V, rho)` (lines 22-33 of
optimizer.py): store the inputs, but first check that the wing has a
section named `design_section`; a missing section raises `IOError`
before any other work. -/
def TwistOptimizer.init (wing_input : WingInput) (V rho : ℚ) :
    Except PyErr TwistOptimizer :=
  match wing_input.wings.lookup "design_section" with
  | none => .error (.ioError "The wing must have a section named design_section.")
  | some _ => .ok
      { wing_input := wing_input, V := V, rho := rho,
        N := none, CL := none, scene := none, alpha := none, C_D := none }

/-- `TwistOptimizer._get_induced_drag(twist)` (lines 72-93 of
optimizer.py).  Returns the updated object state together with the
scaled drag coefficient, or the first uncaught exception.  Mirrors the
source line by line: build the station array `linspace(0, 1, N)` and
the two-column twist table, deep-copy the wing input and overwrite the
design-section twist, build a fresh scene holding the copy, assign it
to `self._scene`, trim to the target CL (storing the trim angle in the
scene state and then in `self.alpha`), solve forces and return
`CD * 1000`.  An exception leaves the assignments already made in
place. -/
def TwistOptimizer.get_induced_drag (solver : Solver) (st : TwistOptimizer)
    (twist : List ℚ) : TwistOptimizer × Except PyErr ℚ :=
  match st.N with
  | none => (st, .error (.attributeError "_N"))
  | some n =>
    let s := linspace 0 1 n
    let twist_array := s.zip twist
    let wing_dict := st.wing_input.setDesignTwist twist_array
    let scene0 : Scene := { density := st.rho, aircraft := some (wing_dict, st.V), alpha := none }
    let st1 := { st with scene := some scene0 }
    match st.CL with
    | none => (st1, .error (.attributeError "_CL"))
    | some cl =>
      match solver.trimAlpha scene0 cl with
      | .error e => (st1, .error e)
      | .ok a =>
        let scene1 := { scene0 with alpha := some a }
        let st2 := { st1 with scene := some scene1, alpha := some a }
        match solver.forcesCD scene1 with
        | .error e => (st2, .error e)
        | .ok cd => (st2, .ok (cd * 1000))

/-- The raw (unscaled) drag coefficient of the trimmed solve for a
candidate twist vector: the value `FM["wing"]["total"]["CD"]` that
line 92 of optimizer.py reads, before the `* 1000` scaling of line 93.
Stated from the spec side of the refinement (`rawDragCoefficient` in
the spec), to be compared with what `get_induced_drag` returns. -/
def TwistOptimizer.rawDragCoefficient (solver : Solver) (st : TwistOptimizer)
    (twist : List ℚ) : Except PyErr ℚ :=
  match st.N with
  | none => .error (.attributeError "_N")
  | some n =>
    let s := linspace 0 1 n
    let twist_array := s.zip twist
    let wing_dict := st.wing_input.setDesignTwist twist_array
    let scene0 : Scene := { density := st.rho, aircraft := some (wing_dict, st.V), alpha := none }
    match st.CL with
    | none => .error (.attributeError "_CL")
    | some cl =>
      match solver.trimAlpha scene0 cl with
      | .error e => .error e
      | .ok a =>
        let scene1 := { scene0 with alpha := some a }
        match solver.forcesCD scene1 with
        | .error e => .error e
        | .ok cd => .ok cd

/-- The result object of `scipy.optimize.minimize`: the optimal vector
`x` and the final objective value `fun` (here `fn`). -/
structure MinResult where
  x : List ℚ
  fn : ℚ
  deriving DecidableEq, Repr

/-- Oracle for `scipy.optimize.minimize`: it receives the objective (a
state-mutating callback), the initial guess, and the current object
state, and produces the state after all its objective evaluations
together with its result. -/
def Minimizer : Type :=
  (TwistOptimizer → List ℚ → TwistOptimizer × Except PyErr ℚ) →
    List ℚ → TwistOptimizer → TwistOptimizer × MinResult

/-- `TwistOptimizer.optimize(N_twist_stations, CL)` (lines 36-69 of
optimizer.py): store `N` and `CL`, minimize the objective starting
from an all-zero twist vector, store `C_D = result.fun / 1000`, and
return the span array `linspace(0, 0.5, N)` together with the optimal
twist vector. -/
def TwistOptimizer.optimize (solver : Solver) (minimize : Minimizer)
    (st : TwistOptimizer) (N_twist_stations : ℕ) (CL : ℚ) :
    TwistOptimizer × (List ℚ × List ℚ) :=
  let st1 := { st with N := some N_twist_stations, CL := some CL }
  let twist0 := List.replicate N_twist_stations (0 : ℚ)
  let res := minimize (fun s t => TwistOptimizer.get_induced_drag solver s t) twist0 st1
  let st2 := res.1
  let result := res.2
  let st3 := { st2 with C_D := some (result.fn / 1000) }
  let s := linspace 0 (1/2) N_twist_stations
  (st3, (s, result.x))

/-- The per-station arrays that `scene.distributions()` reports for
`dist["wing"]["design_section_right"]` (lines 118-126 of optimizer.py):
span fraction, panel area, chord, twist (radians), the three force
components and the section lift coefficient. -/
structure DistData where
  span_frac : List ℝ
  area : List ℝ
  chord : List ℝ
  twist : List ℝ
  Fx : List ℝ
  Fy : List ℝ
  Fz : List ℝ
  section_CL : List ℝ

/-- The arithmetic of `get_distributions` (lines 114-144 of
optimizer.py) once the scene data has been fetched: given `rho`, `V`,
the target `CL`, the trim angle of attack `alpha` (degrees) and the
reference chord `cw`, produce the returned quadruple
`(s, twist, CL/self._CL, load)`.  The rotated lift/drag decomposition
`L`, `D` and the per-station `CD` are computed exactly as in the
source (lines 129-136) even though they do not feed the returned
value. -/
noncomputable def distributionsCalc (rho V cl alpha cw : ℝ) (d : DistData) :
    List ℝ × List ℝ × List ℝ × List ℝ :=
  let s := d.span_frac.map (fun x => x * 0.5)
  let dS := d.area
  let c := d.chord
  let twist := d.twist.map (fun t => t * (180 / Real.pi))
  let a := alpha * (Real.pi / 180)
  let L := List.zipWith (fun fz fx => -fz * Real.cos a - fx * Real.sin a) d.Fz d.Fx
  let D := List.zipWith (fun fx fz => -fx * Real.cos a - fz * Real.sin a) d.Fx d.Fz
  let non_dim := dS.map (fun x => 0.5 * rho * V * V * x)
  let CD := List.zipWith (fun di ndi => di / ndi) D non_dim
  let Cn := List.zipWith (fun p ndi => Real.sqrt (p.1 ^ 2 + p.2 ^ 2) / ndi)
    (d.Fz.zip d.Fy) non_dim
  let load := List.zipWith (fun cni ci => cni * ci / (cl * cw)) Cn c
  (s, twist, d.section_CL.map (fun x => x / cl), load)

/-- `TwistOptimizer.get_distributions()` (lines 96-144 of
optimizer.py).  The reference-geometry query and the distribution
query on the scene are oracles (`refGeom`, giving `(Sw, cw, bw)`, and
`dists`).  Reading `self._scene`, `self.alpha` or `self._CL` before
`optimize` has assigned them raises `AttributeError`. -/
noncomputable def TwistOptimizer.get_distributions
    (refGeom : Scene → ℝ × ℝ × ℝ) (dists : Scene → DistData)
    (st : TwistOptimizer) : Except PyErr (List ℝ × List ℝ × List ℝ × List ℝ) :=
  match st.scene with
  | none => .error (.attributeError "_scene")
  | some sc =>
    let cw := (refGeom sc).2.1
    let d := dists sc
    match st.alpha with
    | none => .error (.attributeError "alpha")
    | some alpha =>
      match st.CL with
      | none => .error (.attributeError "_CL")
      | some cl => .ok (distributionsCalc (st.rho : ℝ) (st.V : ℝ) (cl : ℝ) (alpha : ℝ) cw d)

/-- The span stations of the twist table stored in the design section
of the wing dictionary held by the optimizer's scene, when present:
the first column of the two-column table that `_get_induced_drag`
hands to MachUpX. -/
def designTwistStations (st : TwistOptimizer) : Option (List ℚ) :=
  match st.scene with
  | none => none
  | some sc =>
    match sc.aircraft with
    | none => none
    | some (wd, _) =>
      match wd.wings.lookup "design_section" with
      | none => none
      | some sec => sec.twist.map (List.map Prod.fst)

/-- Example geometry without a `design_section`, for concrete instantiations. -/
def wingNoDesign : WingInput :=
  { wings := [("main_wing", { twist := none, params := [("semispan", 6)] })], extra := [] }

/-- Example geometry with a `design_section`, for concrete instantiations. -/
def wingWithDesign : WingInput :=
  { wings := [("design_section", { twist := none, params := [("semispan", 6)] }),
              ("winglets", { twist := none, params := [("semispan", 1)] })],
    extra := [("weight", 50)] }

/-- A solver oracle whose trim and force solves always succeed. -/
def solverOk : Solver :=
  { trimAlpha := fun _ _ => .ok 5, forcesCD := fun _ => .ok (7/1000) }

/-- A solver oracle whose trim solve always fails. -/
def solverTrimFail : Solver :=
  { trimAlpha := fun _ _ => .error (.solverError "trim did not converge"),
    forcesCD := fun _ => .ok 0 }

/-- A solver oracle whose trim succeeds but whose force solve fails. -/
def solverForcesFail : Solver :=
  { trimAlpha := fun _ _ => .ok 5,
    forcesCD := fun _ => .error (.solverError "forces did not converge") }

/-- A concrete minimizer oracle: one objective evaluation at the
initial guess, whose state it returns together with the guess. -/
def minEx : Minimizer :=
  fun objective x0 st =>
    let r := objective st x0
    (r.1, { x := x0, fn := match r.2 with | .ok v => v | .error _ => 0 })

/-- An example optimizer state as `optimize` sets it up before calling
the minimizer: constructed from `wingWithDesign`, with `N` and `CL`
assigned. -/
def stReady : TwistOptimizer :=
  { wing_input := wingWithDesign, V := 100, rho := 1, N := some 2, CL := some (1/2),
    scene := none, alpha := none, C_D := none }

/-- A freshly constructed optimizer state (what `init` returns for
`wingWithDesign`): no optimization attribute assigned yet. -/
def stFresh : TwistOptimizer :=
  { wing_input := wingWithDesign, V := 100, rho := 1/500,
    N := none, CL := none, scene := none, alpha := none, C_D := none }

/-- A concrete reference-geometry oracle for instantiations. -/
noncomputable def refGeomEx : Scene → ℝ × ℝ × ℝ := fun _ => (6, 1, 6)

/-- Concrete per-station distribution data for instantiations. -/
noncomputable def distEx : DistData :=
  { span_frac := [1], area := [2], chord := [3], twist := [0],
    Fx := [5], Fy := [4], Fz := [3], section_CL := [6] }

/-- A concrete distribution oracle for instantiations. -/
noncomputable def distsEx : Scene → DistData := fun _ => distEx

section Lemmas

/-- One objective evaluation only reassigns `_scene` and `alpha`: the
stored geometry, flight condition, station count, target CL and
reported drag are untouched whatever the solver does. -/
lemma get_induced_drag_frame (solver : Solver) (st : TwistOptimizer) (v : List ℚ) :
    (TwistOptimizer.get_induced_drag solver st v).1.wing_input = st.wing_input
    ∧ (TwistOptimizer.get_induced_drag solver st v).1.V = st.V
    ∧ (TwistOptimizer.get_induced_drag solver st v).1.rho = st.rho
    ∧ (TwistOptimizer.get_induced_drag solver st v).1.N = st.N
    ∧ (TwistOptimizer.get_induced_drag solver st v).1.CL = st.CL
    ∧ (TwistOptimizer.get_induced_drag solver st v).1.C_D = st.C_D := by
  rcases st with ⟨w, V, r, N, C, sc, a, d⟩
  rcases N with _ | n
  · simp [TwistOptimizer.get_induced_drag]
  rcases C with _ | cl
  · simp [TwistOptimizer.get_induced_drag]
  simp only [TwistOptimizer.get_induced_drag]
  split
  · simp
  · split <;> simp

/-- The scaled drag returned by one objective evaluation depends only
on the stored geometry, velocity, density, station count and target
CL, never on the scene, trim angle or reported drag left over from
earlier evaluations. -/
lemma get_induced_drag_snd_congr (solver : Solver) {st1 st2 : TwistOptimizer}
    (v : List ℚ) (hw : st1.wing_input = st2.wing_input) (hV : st1.V = st2.V)
    (hr : st1.rho = st2.rho) (hN : st1.N = st2.N) (hCL : st1.CL = st2.CL) :
    (TwistOptimizer.get_induced_drag solver st1 v).2
      = (TwistOptimizer.get_induced_drag solver st2 v).2 := by
  rcases st1 with ⟨w1, V1, r1, N1, C1, s1, a1, d1⟩
  rcases st2 with ⟨w2, V2, r2, N2, C2, s2, a2, d2⟩
  simp only at hw hV hr hN hCL
  subst hw hV hr hN hCL
  rcases N1 with _ | n
  · rfl
  rcases C1 with _ | cl
  · rfl
  simp only [TwistOptimizer.get_induced_drag]
  split
  · rfl
  · split <;> rfl

lemma linspace_length (a b : ℚ) (n : ℕ) : (linspace a b n).length = n := by
  unfold linspace
  split_ifs with h1 h2
  · simp [h1]
  · simp [h2]
  · rw [List.length_map, List.length_range]

lemma linspace_getD (a b : ℚ) (n i : ℕ) (h2 : 2 ≤ n) (hi : i < n) :
    (linspace a b n).getD i 0 = a + (b - a) * (i : ℚ) / ((n : ℚ) - 1) := by
  unfold linspace
  rw [if_neg (by omega), if_neg (by omega)]
  rw [List.getD_eq_getElem _ _ (by rw [List.length_map, List.length_range]; exact hi)]
  simp only [List.getElem_map, List.getElem_range]

lemma linspace_getD_zero (a b : ℚ) (n : ℕ) (h2 : 2 ≤ n) :
    (linspace a b n).getD 0 0 = a := by
  rw [linspace_getD a b n 0 h2 (by omega)]
  simp

lemma linspace_getD_last (a b : ℚ) (n : ℕ) (h2 : 2 ≤ n) :
    (linspace a b n).getD (n - 1) 0 = b := by
  rw [linspace_getD a b n (n - 1) h2 (by omega)]
  have hcast : ((n - 1 : ℕ) : ℚ) = (n : ℚ) - 1 := by
    have : (1 : ℕ) ≤ n := by omega
    push_cast [this]
    ring
  have hne : (n : ℚ) - 1 ≠ 0 := by
    have : (2 : ℚ) ≤ (n : ℚ) := by exact_mod_cast h2
    linarith
  rw [hcast, mul_div_assoc, div_self hne]
  ring

lemma linspace_spacing (a b : ℚ) (n i : ℕ) (h2 : 2 ≤ n) (hi : i + 1 < n) :
    (linspace a b n).getD (i + 1) 0 - (linspace a b n).getD i 0
      = (b - a) / ((n : ℚ) - 1) := by
  rw [linspace_getD a b n (i + 1) h2 hi, linspace_getD a b n i h2 (by omega)]
  have hne : (n : ℚ) - 1 ≠ 0 := by
    have : (2 : ℚ) ≤ (n : ℚ) := by exact_mod_cast h2
    linarith
  push_cast
  field_simp
  ring

/-- Looking up `design_section` after the twist assignment returns the
stored section with its twist overwritten. -/
lemma lookup_setDesignTwist (w : WingInput) (t : List (ℚ × ℚ)) :
    (w.setDesignTwist t).wings.lookup "design_section"
      = (w.wings.lookup "design_section").map
          (fun sec => { sec with twist := some t }) := by
  show (setDesignTwistWings t w.wings).lookup "design_section" = _
  induction w.wings with
  | nil => rfl
  | cons hd tl ih =>
    obtain ⟨k, sec⟩ := hd
    by_cases hk : k = "design_section"
    · subst hk
      simp only [setDesignTwistWings, if_pos rfl]
      simp [List.lookup]
    · have hbeq : ("design_section" == k) = false := beq_eq_false_iff_ne.mpr (Ne.symm hk)
      simp only [setDesignTwistWings, if_neg hk]
      simp [List.lookup, hbeq, ih]

/-- Whatever the solver does, an evaluation with `N` assigned leaves a
scene in `self._scene` holding the twisted deep copy of the geometry
and the stored velocity. -/
lemma get_induced_drag_scene (solver : Solver) (st : TwistOptimizer)
    (v : List ℚ) (n : ℕ) (hn : st.N = some n) :
    ∃ sc, (TwistOptimizer.get_induced_drag solver st v).1.scene = some sc
      ∧ sc.aircraft
        = some (st.wing_input.setDesignTwist ((linspace 0 1 n).zip v), st.V) := by
  rcases st with ⟨w, V, r, N, C, sc, a, d⟩
  simp only at hn
  subst hn
  rcases C with _ | cl
  · simp [TwistOptimizer.get_induced_drag]
  simp only [TwistOptimizer.get_induced_drag]
  split
  · simp
  · split <;> simp

end Lemmas

/-- C1: for every twist vector `v` the objective returns the raw drag
coefficient of the trimmed solve multiplied by the scale factor 1000
(propagating failures unscaled), and after optimization the reported
minimum drag coefficient `C_D` equals the minimizer's final objective
value divided by the same factor 1000. -/
theorem objective_scaling_and_reported_CD (solver : Solver) (minimize : Minimizer)
    (st st0 : TwistOptimizer) (v : List ℚ) (N : ℕ) (CL : ℚ) :
    (TwistOptimizer.get_induced_drag solver st v).2
        = (TwistOptimizer.rawDragCoefficient solver st v).map (fun c => c * 1000)
    ∧ (TwistOptimizer.optimize solver minimize st0 N CL).1.C_D
        = some ((minimize (fun s t => TwistOptimizer.get_induced_drag solver s t)
            (List.replicate N 0) { st0 with N := some N, CL := some CL }).2.fn / 1000) := by
  constructor
  · rcases st with ⟨w, V, r, Nf, C, sc, a, d⟩
    rcases Nf with _ | n
    · simp [TwistOptimizer.get_induced_drag, TwistOptimizer.rawDragCoefficient, Except.map]
    rcases C with _ | cl
    · simp [TwistOptimizer.get_induced_drag, TwistOptimizer.rawDragCoefficient, Except.map]
    simp only [TwistOptimizer.get_induced_drag, TwistOptimizer.rawDragCoefficient]
    split
    · simp [Except.map]
    · split <;> simp [Except.map]
  · rfl

/-- C3: construction fails with a configuration error (`IOError`),
before any optimization work, exactly when the geometry lacks a
section named `design_section`; with the section present construction
succeeds, storing the inputs and nothing else. -/
theorem init_design_section_check (w : WingInput) (V rho : ℚ) :
    (w.wings.lookup "design_section" = none →
      TwistOptimizer.init w V rho
        = .error (.ioError "The wing must have a section named design_section."))
    ∧ (∀ sec, w.wings.lookup "design_section" = some sec →
      TwistOptimizer.init w V rho
        = .ok { wing_input := w, V := V, rho := rho, N := none, CL := none,
                scene := none, alpha := none, C_D := none }) := by
  constructor
  · intro h
    unfold TwistOptimizer.init
    rw [h]
  · intro sec h
    unfold TwistOptimizer.init
    rw [h]

/-- Witness for C3 at two concrete geometries: one missing
`design_section` (construction raises `IOError`), one containing it
(construction succeeds). -/
theorem init_design_section_check_witness :
    TwistOptimizer.init wingNoDesign 100 1
      = .error (.ioError "The wing must have a section named design_section.")
    ∧ TwistOptimizer.init wingWithDesign 100 1
      = .ok { wing_input := wingWithDesign, V := 100, rho := 1, N := none, CL := none,
              scene := none, alpha := none, C_D := none } :=
  ⟨(init_design_section_check wingNoDesign 100 1).1 (by decide),
   (init_design_section_check wingWithDesign 100 1).2
     { twist := none, params := [("semispan", 6)] } (by decide)⟩

/-- C6: every objective evaluation leaves the stored base geometry
unchanged; the candidate twist table is written only into the deep
copy of the geometry that is handed to the fresh scene. -/
theorem evaluation_preserves_pristine_geometry (solver : Solver)
    (st : TwistOptimizer) (v : List ℚ) :
    (TwistOptimizer.get_induced_drag solver st v).1.wing_input = st.wing_input
    ∧ ∀ n, st.N = some n →
      ∃ sc, (TwistOptimizer.get_induced_drag solver st v).1.scene = some sc
        ∧ sc.aircraft
          = some (st.wing_input.setDesignTwist ((linspace 0 1 n).zip v), st.V) := by
  refine ⟨(get_induced_drag_frame solver st v).1, ?_⟩
  intro n hn
  rcases st with ⟨w, V, r, N, C, sc, a, d⟩
  simp only at hn
  subst hn
  rcases C with _ | cl
  · simp [TwistOptimizer.get_induced_drag]
  simp only [TwistOptimizer.get_induced_drag]
  split
  · simp
  · split <;> simp

/-- Witness for C6: a concrete evaluation from `stReady` with the
always-converging solver; the stored geometry is unchanged and the
scene holds the twisted copy. -/
theorem evaluation_preserves_pristine_geometry_witness :
    (TwistOptimizer.get_induced_drag solverOk stReady [1, 2]).1.wing_input
        = stReady.wing_input
    ∧ ∃ sc, (TwistOptimizer.get_induced_drag solverOk stReady [1, 2]).1.scene = some sc
        ∧ sc.aircraft
          = some (stReady.wing_input.setDesignTwist ((linspace 0 1 2).zip [1, 2]),
              stReady.V) :=
  ⟨(evaluation_preserves_pristine_geometry solverOk stReady [1, 2]).1,
   (evaluation_preserves_pristine_geometry solverOk stReady [1, 2]).2 2 rfl⟩

/-- C4: the objective catches nothing: when the trim solve fails the
objective returns exactly that failure, and when the trim succeeds but
the force solve fails the objective returns exactly that failure — no
penalty value is substituted. -/
theorem objective_propagates_solver_failure (solver : Solver) (st : TwistOptimizer)
    (v : List ℚ) (n : ℕ) (cl : ℚ) (e : PyErr)
    (hn : st.N = some n) (hcl : st.CL = some cl) :
    (solver.trimAlpha
        { density := st.rho,
          aircraft := some (st.wing_input.setDesignTwist ((linspace 0 1 n).zip v), st.V),
          alpha := none } cl = .error e →
      (TwistOptimizer.get_induced_drag solver st v).2 = .error e)
    ∧ ∀ a, solver.trimAlpha
        { density := st.rho,
          aircraft := some (st.wing_input.setDesignTwist ((linspace 0 1 n).zip v), st.V),
          alpha := none } cl = .ok a →
      solver.forcesCD
        { density := st.rho,
          aircraft := some (st.wing_input.setDesignTwist ((linspace 0 1 n).zip v), st.V),
          alpha := some a } = .error e →
      (TwistOptimizer.get_induced_drag solver st v).2 = .error e := by
  rcases st with ⟨w, V, r, N, C, sc, a0, d⟩
  simp only at hn hcl
  subst hn hcl
  constructor
  · intro h
    simp [TwistOptimizer.get_induced_drag, h]
  · intro a h hf
    simp [TwistOptimizer.get_induced_drag, h, hf]

/-- Witness for C4: a concrete trim failure from `stReady` propagates
as that very error. -/
theorem objective_propagates_solver_failure_witness :
    (TwistOptimizer.get_induced_drag solverTrimFail stReady [1, 2]).2
      = .error (.solverError "trim did not converge") :=
  (objective_propagates_solver_failure solverTrimFail stReady [1, 2] 2 (1/2)
    (.solverError "trim did not converge") rfl rfl).1 rfl

/-- C5: evaluating the objective twice with the same twist vector
yields identical drag results — the result depends only on the stored
geometry and flight condition (no memoization and no hidden state),
and in particular a repeated evaluation right after a first one
returns the same value. -/
theorem objective_idempotent (solver : Solver) (st1 st2 st : TwistOptimizer)
    (v : List ℚ) (hw : st1.wing_input = st2.wing_input) (hV : st1.V = st2.V)
    (hr : st1.rho = st2.rho) (hN : st1.N = st2.N) (hCL : st1.CL = st2.CL) :
    (TwistOptimizer.get_induced_drag solver st1 v).2
        = (TwistOptimizer.get_induced_drag solver st2 v).2
    ∧ (TwistOptimizer.get_induced_drag solver
          (TwistOptimizer.get_induced_drag solver st v).1 v).2
        = (TwistOptimizer.get_induced_drag solver st v).2 := by
  constructor
  · exact get_induced_drag_snd_congr solver v hw hV hr hN hCL
  · have h := get_induced_drag_frame solver st v
    exact get_induced_drag_snd_congr solver v h.1 h.2.1 h.2.2.1 h.2.2.2.1 h.2.2.2.2.1

/-- Witness for C5: re-evaluating at `[1, 2]` after a first evaluation
from `stReady` (which reassigned the scene and trim angle) returns the
same drag. -/
theorem objective_idempotent_witness :
    (TwistOptimizer.get_induced_drag solverOk
        (TwistOptimizer.get_induced_drag solverOk stReady [1, 2]).1 [1, 2]).2
      = (TwistOptimizer.get_induced_drag solverOk stReady [1, 2]).2 :=
  (objective_idempotent solverOk stReady
    (TwistOptimizer.get_induced_drag solverOk stReady [1, 2]).1 stReady [1, 2]
    rfl rfl rfl rfl rfl).2

/-- C9 counterexample: the claim that a failed evaluation leaves every
driver attribute as it was is false: with a solver whose force solve
fails after a successful trim, the evaluation fails, yet `self.alpha`
(and `self._scene`) now hold values written by the failed
evaluation. -/
theorem failed_evaluation_mutates_alpha :
    (TwistOptimizer.get_induced_drag solverForcesFail stReady [1, 2]).2
        = .error (.solverError "forces did not converge")
    ∧ (TwistOptimizer.get_induced_drag solverForcesFail stReady [1, 2]).1.alpha
        ≠ stReady.alpha := by
  refine ⟨rfl, ?_⟩
  intro h
  exact Option.noConfusion h

/-- C9 amended: after a failed evaluation the stored geometry, the
flight condition, the station count, the target CL and the reported
drag — every attribute the next objective evaluation reads — are
unchanged, and no partial twist-vector state is stored in them; only
`self._scene` and `self.alpha` may retain values assigned during the
failed evaluation. -/
theorem failed_evaluation_frame (solver : Solver) (st : TwistOptimizer)
    (v : List ℚ) (e : PyErr)
    (hfail : (TwistOptimizer.get_induced_drag solver st v).2 = .error e) :
    (TwistOptimizer.get_induced_drag solver st v).1.wing_input = st.wing_input
    ∧ (TwistOptimizer.get_induced_drag solver st v).1.V = st.V
    ∧ (TwistOptimizer.get_induced_drag solver st v).1.rho = st.rho
    ∧ (TwistOptimizer.get_induced_drag solver st v).1.N = st.N
    ∧ (TwistOptimizer.get_induced_drag solver st v).1.CL = st.CL
    ∧ (TwistOptimizer.get_induced_drag solver st v).1.C_D = st.C_D :=
  get_induced_drag_frame solver st v

/-- Witness for the amended C9: a concrete failed evaluation (force
solve fails) from `stReady` leaves those attributes unchanged. -/
theorem failed_evaluation_frame_witness :
    (TwistOptimizer.get_induced_drag solverForcesFail stReady [3, 4]).1.wing_input
        = stReady.wing_input
    ∧ (TwistOptimizer.get_induced_drag solverForcesFail stReady [3, 4]).1.V = stReady.V
    ∧ (TwistOptimizer.get_induced_drag solverForcesFail stReady [3, 4]).1.rho = stReady.rho
    ∧ (TwistOptimizer.get_induced_drag solverForcesFail stReady [3, 4]).1.N = stReady.N
    ∧ (TwistOptimizer.get_induced_drag solverForcesFail stReady [3, 4]).1.CL = stReady.CL
    ∧ (TwistOptimizer.get_induced_drag solverForcesFail stReady [3, 4]).1.C_D
        = stReady.C_D :=
  failed_evaluation_frame solverForcesFail stReady [3, 4]
    (.solverError "forces did not converge") rfl

/-- C2 counterexample: at `N = 2` the span array returned by `optimize`
is `[0, 1/2]` (evenly spaced over `[0, 0.5]`) while the objective pairs
the twist values with the stations `[0, 1]` (evenly spaced over
`[0, 1]`): the two station arrays differ, so `optimize` and the
objective do not use the same span convention. -/
theorem span_convention_mismatch :
    (TwistOptimizer.optimize solverOk minEx stReady 2 (1/2)).2.1 = linspace 0 (1/2) 2
    ∧ designTwistStations (TwistOptimizer.get_induced_drag solverOk stReady [0, 0]).1
        = some (linspace 0 1 2)
    ∧ linspace 0 (1/2) 2 = [0, 1/2]
    ∧ linspace 0 1 2 = [0, 1]
    ∧ linspace 0 (1/2) 2 ≠ linspace 0 1 2 := by
  refine ⟨rfl, rfl, ?_, ?_, ?_⟩
  · norm_num [linspace, List.range_succ]
  · norm_num [linspace, List.range_succ]
  · norm_num [linspace, List.range_succ]

/-- C2 amended: the span array returned by `optimize` consists of `N`
evenly spaced points starting at 0.0 and ending exactly at 0.5, but it
is NOT the station array the objective pairs with the twist values:
the objective builds its twist table over `N` evenly spaced stations
from 0.0 to 1.0, so the two conventions differ (by a factor of two in
endpoint and spacing). -/
theorem span_convention_corrected (solver : Solver) (minimize : Minimizer)
    (st0 st : TwistOptimizer) (N : ℕ) (CL : ℚ) (v : List ℚ)
    (hN2 : 2 ≤ N) (hstN : st.N = some N) (hlen : v.length = N)
    (hsec : (st.wing_input.wings.lookup "design_section").isSome) :
    (TwistOptimizer.optimize solver minimize st0 N CL).2.1 = linspace 0 (1/2) N
    ∧ (linspace 0 (1/2) N).length = N
    ∧ (linspace 0 (1/2) N).getD 0 0 = 0
    ∧ (linspace 0 (1/2) N).getD (N - 1) 0 = 1/2
    ∧ (∀ i, i + 1 < N →
        (linspace 0 (1/2) N).getD (i + 1) 0 - (linspace 0 (1/2) N).getD i 0
          = (1/2) / ((N : ℚ) - 1))
    ∧ designTwistStations (TwistOptimizer.get_induced_drag solver st v).1
        = some (linspace 0 1 N)
    ∧ (linspace 0 1 N).getD 0 0 = 0
    ∧ (linspace 0 1 N).getD (N - 1) 0 = 1
    ∧ (∀ i, i + 1 < N →
        (linspace 0 1 N).getD (i + 1) 0 - (linspace 0 1 N).getD i 0 = 1 / ((N : ℚ) - 1))
    ∧ linspace 0 (1/2) N ≠ linspace 0 1 N := by
  obtain ⟨sc, hsc, hair⟩ := get_induced_drag_scene solver st v N hstN
  refine ⟨rfl, linspace_length _ _ _, linspace_getD_zero _ _ _ hN2,
    linspace_getD_last _ _ _ hN2, ?_, ?_, linspace_getD_zero _ _ _ hN2,
    linspace_getD_last _ _ _ hN2, ?_, ?_⟩
  · intro i hi
    simpa using linspace_spacing 0 (1/2) N i hN2 hi
  · simp only [designTwistStations, hsc, hair]
    rw [lookup_setDesignTwist]
    obtain ⟨sec, hsec2⟩ := Option.isSome_iff_exists.mp hsec
    rw [hsec2]
    simp only [Option.map_some']
    rw [List.map_fst_zip]
    rw [linspace_length, hlen]
  · intro i hi
    simpa using linspace_spacing 0 1 N i hN2 hi
  · intro heq
    have h := congrArg (fun l => l.getD (N - 1) 0) heq
    simp only [linspace_getD_last 0 (1/2) N hN2, linspace_getD_last 0 1 N hN2] at h
    norm_num at h

/-- Witness for the amended C2 at `N = 2` from `stReady`: `optimize`
returns the `[0, 0.5]` array, which differs from the `[0, 1]` station
array the objective uses. -/
theorem span_convention_corrected_witness :
    (TwistOptimizer.optimize solverOk minEx stReady 2 (1/2)).2.1 = linspace 0 (1/2) 2
    ∧ linspace 0 (1/2) 2 ≠ linspace 0 1 2 :=
  ⟨(span_convention_corrected solverOk minEx stReady stReady 2 (1/2) [1, 2]
      (by norm_num) rfl rfl (by rfl)).1,
   (span_convention_corrected solverOk minEx stReady stReady 2 (1/2) [1, 2]
      (by norm_num) rfl rfl (by rfl)).2.2.2.2.2.2.2.2.2⟩

/-- C7: in the distribution post-processor, for every station `i` the
non-dimensionalizing factor equals `0.5 * rho * V^2 * dS[i]`, the
section normal-force coefficient equals
`sqrt(Fz[i]^2 + Fy[i]^2)` divided by that factor, and the returned
load distribution equals `Cn[i] * c[i] / (CL * cw)` with `cw` the
reference chord. -/
theorem load_distribution_formula (rho V cl alpha cw : ℝ) (d : DistData) (i : ℕ)
    (hz : i < d.Fz.length) (hy : i < d.Fy.length) (ha : i < d.area.length)
    (hc : i < d.chord.length) :
    (distributionsCalc rho V cl alpha cw d).2.2.2.getD i 0
      = Real.sqrt (d.Fz.getD i 0 ^ 2 + d.Fy.getD i 0 ^ 2)
          / (0.5 * rho * V * V * d.area.getD i 0) * d.chord.getD i 0 / (cl * cw) := by
  simp only [distributionsCalc]
  rw [List.getD_eq_getElem _ _
    (by simp only [List.length_zipWith, List.length_zip, List.length_map]; omega)]
  rw [List.getElem_zipWith, List.getElem_zipWith, List.getElem_zip, List.getElem_map]
  rw [List.getD_eq_getElem _ _ hz, List.getD_eq_getElem _ _ hy,
    List.getD_eq_getElem _ _ ha, List.getD_eq_getElem _ _ hc]

/-- Witness for C7 at concrete one-station data `distEx`
(Fz = 3, Fy = 4, dS = 2, c = 3) with rho = V = CL = cw = 1. -/
theorem load_distribution_formula_witness :
    (distributionsCalc 1 1 1 0 1 distEx).2.2.2.getD 0 0
      = Real.sqrt (distEx.Fz.getD 0 0 ^ 2 + distEx.Fy.getD 0 0 ^ 2)
          / (0.5 * 1 * 1 * 1 * distEx.area.getD 0 0) * distEx.chord.getD 0 0 / (1 * 1) :=
  load_distribution_formula 1 1 1 0 1 distEx 0
    (by decide) (by decide) (by decide) (by decide)

/-- C8: the lift distribution returned by `get_distributions` is the
solver-reported section lift coefficient divided by the target CL;
the rotated lift/drag decomposition — the only consumer of the trim
angle of attack — is computed but has no influence on any returned
output, so the returned quadruple is independent of alpha. -/
theorem lift_distribution_from_section_CL (rho V cl alpha alpha2 cw : ℝ)
    (d : DistData) :
    (distributionsCalc rho V cl alpha cw d).2.2.1 = d.section_CL.map (fun x => x / cl)
    ∧ distributionsCalc rho V cl alpha cw d = distributionsCalc rho V cl alpha2 cw d :=
  ⟨rfl, rfl⟩

/-- C10: `get_distributions` called on a freshly constructed optimizer
(before any objective evaluation has assigned `self._scene`,
`self.alpha` and `self._CL`) fails with an attribute lookup error on
`_scene` instead of returning data. -/
theorem get_distributions_requires_optimize
    (refGeom : Scene → ℝ × ℝ × ℝ) (dists : Scene → DistData)
    (w : WingInput) (V rho : ℚ) (st : TwistOptimizer)
    (h : TwistOptimizer.init w V rho = .ok st) :
    TwistOptimizer.get_distributions refGeom dists st
      = .error (.attributeError "_scene") := by
  rcases hl : w.wings.lookup "design_section" with _ | sec
  · simp only [TwistOptimizer.init, hl] at h
    exact Except.noConfusion h
  · simp only [TwistOptimizer.init, hl, Except.ok.injEq] at h
    subst h
    rfl

/-- Witness for C10: on the fresh state produced by `init` the call
fails with the `_scene` attribute error. -/
theorem get_distributions_requires_optimize_witness :
    TwistOptimizer.get_distributions refGeomEx distsEx stFresh
      = .error (.attributeError "_scene") :=
  get_distributions_requires_optimize refGeomEx distsEx wingWithDesign 100 (1/500)
    stFresh rfl

end TwistOpt
